import Mathlib

/-!
# Verification of the rule-based table filter (`DataScreeningTool.screen_data`)

This file gives a shallow embedding of the row-filtering engine of
`src/test6.py` and proves properties of it.

Modelling conventions:
* A pandas scalar cell is a `Value`: an integer, a string, a boolean, or
  the missing value (`NaN`), written `Value.null`.
* A data frame is an ordered column list plus an ordered row list; a row
  is an association list from column name to value (a rectangular frame:
  a cell absent from the association list reads as `Value.null`, the way
  a missing cell reads as `NaN` in pandas).
* The `value` slot of a rule is either a scalar or a list of scalars
  (`Operand`), matching the dynamic `Any` slot in the Python dict.
* Python exceptions become an `Except` result; the two `ValueError`s
  raised by `screen_data` become the constructors of `ScreenError`.
* `screen_data` is a method on the tool object; it is embedded in
  state-passing style, returning the (unchanged, since the source never
  assigns to `self`) tool state together with the result frame.
-/

/-- A scalar cell value: integer, string, boolean, or missing (`NaN`). -/
inductive Value where
  | int  (n : Int)
  | str  (s : String)
  | bool (b : Bool)
  | null
deriving DecidableEq, Repr

/-- Python's `str()` of a scalar, as produced by `astype(str)`:
integers print their decimal form, booleans print `True`/`False`,
and the missing value `NaN` prints as `"nan"`. -/
def Value.toStr : Value → String
  | .int n  => toString n
  | .str s  => s
  | .bool b => if b then "True" else "False"
  | .null   => "nan"

/-- Numeric view used by Python's dynamic comparisons: booleans compare
as the integers 0 and 1; strings and `NaN` have no numeric view. -/
def Value.asNum : Value → Option Int
  | .int n  => some n
  | .bool b => some (if b then 1 else 0)
  | _       => none

/-- Dynamic equality of scalars, following pandas `==`: `NaN` is equal to
nothing (not even itself), booleans equal their 0/1 numeric value, and
values of incomparable kinds are unequal. -/
def valueEq (a b : Value) : Bool :=
  match a.asNum, b.asNum with
  | some x, some y => x == y
  | _, _ =>
    match a, b with
    | .str s, .str t => s == t
    | _, _ => false

/-- Dynamic strict order of scalars, following pandas `<`: numbers (and
booleans as 0/1) by integer order, strings lexicographically; any
comparison touching `NaN`, and any cross-kind ordering, is `false`.
(Cross-kind ordering raises in pandas; no claim exercises it.) -/
def valueLt (a b : Value) : Bool :=
  match a.asNum, b.asNum with
  | some x, some y => decide (x < y)
  | _, _ =>
    match a, b with
    | .str s, .str t => decide (s < t)
    | _, _ => false

/-- Dynamic non-strict order, following pandas `<=`: like `valueLt` with
equality allowed; comparisons touching `NaN` stay `false`. -/
def valueLe (a b : Value) : Bool :=
  valueLt a b || valueEq a b

/-- pandas `Series.isin` membership: `==` equality, except that `NaN`
does match a `NaN` listed in the membership collection (pandas
special-cases missing values in `isin`). -/
def valueIsin (v : Value) (vs : List Value) : Bool :=
  vs.any (fun w => valueEq v w || (v == Value.null && w == Value.null))

/-- Leading-segment match on character lists: `leadMatch pat s` is true
when `pat` is an initial segment of `s`. -/
def leadMatch : List Char → List Char → Bool
  | [], _ => true
  | _ :: _, [] => false
  | a :: as, b :: bs => a == b && leadMatch as bs

/-- Substring occurrence on character lists: `subMatch s pat` is true
when `pat` occurs contiguously somewhere in `s`. -/
def subMatch (s pat : List Char) : Bool :=
  match s with
  | [] => pat.isEmpty
  | _ :: rest => leadMatch pat s || subMatch rest pat

/-- `pandas.Series.str.contains(pat)` on an all-string series.
`str.contains` defaults to `regex=True`, so in general `pat` is a
regular expression; on a pattern free of regex metacharacters
(`regexFreePat`), `re.search` degenerates to a literal substring
search, which is what this definition computes. Theorems that
characterize the `contains` branches for an arbitrary operand carry a
`regexFreePat` hypothesis so that they assert nothing on patterns
where the program performs regex matching instead. -/
def pyStrContains (s pat : String) : Bool :=
  subMatch s.data pat.data

/-- The characters Python's `re` module treats specially in a pattern:
`. ^ $ * + ? \x7b \x7d [ ] \ | ( )`. -/
def pyRegexMeta : List Char :=
  ['.', '^', '$', '*', '+', '?', '\x7b', '\x7d', '[', ']', '\\', '|', '(', ')']

/-- A pattern string containing no regex metacharacter: on such a
pattern `re.search` (hence `str.contains` with its default
`regex=True`) is exactly a literal substring test. -/
def regexFreePat (s : String) : Bool :=
  s.data.all (fun c => !pyRegexMeta.contains c)

/-- The `value` slot of a rule: the Python `Any` value is either a
single scalar or a list of scalars. -/
inductive Operand where
  | scalar (v : Value)
  | list (vs : List Value)
deriving DecidableEq, Repr

/-- The scalar view of an operand, as used by the comparison and
substring conditions (which pass `value` straight to a scalar
comparison; a list operand there is not meaningful in the source and no
claim exercises it — it is mapped to the never-comparing `null`). -/
def Operand.toVal : Operand → Value
  | .scalar v => v
  | .list _ => Value.null

/-- `if not isinstance(value, list): value = [value]` — the coercion the
source applies to the operand of `in` / `not in`. -/
def Operand.asList : Operand → List Value
  | .scalar v => [v]
  | .list vs => vs

/-- A row: an association list from column name to cell value. -/
abbrev Row := List (String × Value)

/-- Reading a cell: the value stored under the column name, or `NaN`
when the rectangular frame has no entry there. -/
def rowValue (r : Row) (column : String) : Value :=
  (r.lookup column).getD Value.null

/-- A data frame: the ordered column list and the ordered row list. -/
structure DataFrame where
  columns : List String
  rows : List Row
deriving DecidableEq, Repr

/-- A screening rule, the dict `{'column': …, 'condition': …, 'value': …}`
appended by `add_rule`. -/
structure Rule where
  column : String
  condition : String
  value : Operand
deriving DecidableEq, Repr

/-- The condition dispatch of `screen_data` (`src/test6.py` lines
91–116): maps a condition string and operand to the row predicate the
corresponding branch filters with, or `none` for the final `else`
branch (unsupported condition, rule skipped). -/
def evalCondition (condition : String) (value : Operand) : Option (Value → Bool) :=
  if condition = ">" then some (fun v => valueLt value.toVal v)
  else if condition = ">=" then some (fun v => valueLe value.toVal v)
  else if condition = "<" then some (fun v => valueLt v value.toVal)
  else if condition = "<=" then some (fun v => valueLe v value.toVal)
  else if condition = "==" then some (fun v => valueEq v value.toVal)
  else if condition = "!=" then some (fun v => !valueEq v value.toVal)
  else if condition = "contains" then
    some (fun v => pyStrContains v.toStr value.toVal.toStr)
  else if condition = "not contains" then
    some (fun v => !pyStrContains v.toStr value.toVal.toStr)
  else if condition = "in" then some (fun v => valueIsin v value.asList)
  else if condition = "not in" then some (fun v => !valueIsin v value.asList)
  else none

/-- One iteration of the rule loop of `screen_data` (`src/test6.py`
lines 80–116): skip the rule when its column is absent from `result`'s
columns or its condition is unsupported, otherwise replace `result` by
the rows satisfying the condition. -/
def applyRule (result : DataFrame) (rule : Rule) : DataFrame :=
  if rule.column ∈ result.columns then
    match evalCondition rule.condition rule.value with
    | some p => { result with rows := result.rows.filter (fun row => p (rowValue row rule.column)) }
    | none => result
  else result

/-- The two `ValueError`s `screen_data` can raise: `"请先加载数据"`
(no data loaded) and `"请先添加筛查规则"` (no rules defined). -/
inductive ScreenError where
  | noDataLoaded
  | noRulesDefined
deriving DecidableEq, Repr

/-- The mutable state of a `DataScreeningTool`: `self.data` (possibly
`None`) and `self.rules`. -/
structure DataScreeningTool where
  data : Option DataFrame
  rules : List Rule
deriving DecidableEq, Repr

/-- `DataScreeningTool.screen_data` (`src/test6.py` lines 63–119):
fails when no data is loaded or no rule was added; otherwise starts from
a copy of the loaded data and folds every rule over it. The tool state
is returned alongside the result (the method assigns to no field of
`self`, so the returned state is the incoming one). -/
def screen_data (tool : DataScreeningTool) :
    Except ScreenError (DataScreeningTool × DataFrame) :=
  match tool.data with
  | none => .error .noDataLoaded
  | some data =>
    if tool.rules.isEmpty then .error .noRulesDefined
    else .ok (tool, tool.rules.foldl applyRule data)

/-- Whether a row passes a rule's condition: the row predicate of the
rule's condition branch, or vacuously `true` for an unsupported
condition. -/
def satisfiesRule (r : Row) (rule : Rule) : Bool :=
  match evalCondition rule.condition rule.value with
  | some p => p (rowValue r rule.column)
  | none => true

/-- A rule is applicable to a frame when its column exists there and its
condition is one of the supported ones; only applicable rules filter. -/
def applicableRule (df : DataFrame) (rule : Rule) : Prop :=
  rule.column ∈ df.columns ∧ (evalCondition rule.condition rule.value).isSome

/-- Whether one loop iteration keeps a row: `true` when the rule is
skipped (missing column) or its condition holds of the row. -/
def ruleKeeps (cols : List String) (rule : Rule) (r : Row) : Bool :=
  if rule.column ∈ cols then satisfiesRule r rule else true

theorem applyRule_columns (df : DataFrame) (rule : Rule) :
    (applyRule df rule).columns = df.columns := by
  unfold applyRule
  split
  · cases evalCondition rule.condition rule.value <;> rfl
  · rfl

theorem applyRule_rows_sublist (df : DataFrame) (rule : Rule) :
    (applyRule df rule).rows.Sublist df.rows := by
  unfold applyRule
  split
  · cases evalCondition rule.condition rule.value
    · exact List.Sublist.refl _
    · exact List.filter_sublist _
  · exact List.Sublist.refl _

theorem mem_applyRule (df : DataFrame) (rule : Rule) (r : Row) :
    r ∈ (applyRule df rule).rows ↔
      r ∈ df.rows ∧ ruleKeeps df.columns rule r = true := by
  unfold applyRule ruleKeeps satisfiesRule
  split
  · cases h : evalCondition rule.condition rule.value with
    | none => simp
    | some p => simp [List.mem_filter]
  · simp

theorem foldl_applyRule_columns (rules : List Rule) (df : DataFrame) :
    (rules.foldl applyRule df).columns = df.columns := by
  induction rules generalizing df with
  | nil => rfl
  | cons rule rest ih =>
    simpa [List.foldl_cons, applyRule_columns] using ih (applyRule df rule)

theorem foldl_applyRule_rows_sublist (rules : List Rule) (df : DataFrame) :
    (rules.foldl applyRule df).rows.Sublist df.rows := by
  induction rules generalizing df with
  | nil => exact List.Sublist.refl _
  | cons rule rest ih =>
    exact (ih (applyRule df rule)).trans (applyRule_rows_sublist df rule)

theorem mem_foldl_applyRule (rules : List Rule) (df : DataFrame) (r : Row) :
    r ∈ (rules.foldl applyRule df).rows ↔
      r ∈ df.rows ∧ ∀ rule ∈ rules, ruleKeeps df.columns rule r = true := by
  induction rules generalizing df with
  | nil => simp
  | cons rule rest ih =>
    rw [List.foldl_cons, ih (applyRule df rule), mem_applyRule,
      applyRule_columns]
    constructor
    · rintro ⟨⟨hmem, hkeep⟩, hrest⟩
      exact ⟨hmem, fun q hq => by
        rcases List.mem_cons.mp hq with h | h
        · exact h ▸ hkeep
        · exact hrest q h⟩
    · rintro ⟨hmem, hall⟩
      exact ⟨⟨hmem, hall rule (List.mem_cons_self _ _)⟩,
        fun q hq => hall q (List.mem_cons_of_mem _ hq)⟩

theorem ruleKeeps_iff_applicable (df : DataFrame) (rule : Rule) (r : Row) :
    ruleKeeps df.columns rule r = true ↔
      (applicableRule df rule → satisfiesRule r rule = true) := by
  unfold ruleKeeps applicableRule
  split
  · rename_i hmem
    cases h : evalCondition rule.condition rule.value with
    | none => simp [satisfiesRule, h]
    | some p => simp [hmem, h]
  · rename_i hmem
    simp [hmem]

/-- `(l1 ++ r :: l2)` is never empty: a rule list containing a
distinguished rule somewhere passes the `if not self.rules` gate. -/
theorem isEmpty_append_cons (l1 l2 : List Rule) (r : Rule) :
    (l1 ++ r :: l2).isEmpty = false := by
  cases l1 <;> rfl

/-- Successful runs of `screen_data`: when data is loaded and the run
returns `ok`, the payload is the unchanged tool state together with the
fold of all rules over the loaded frame. -/
theorem screen_data_ok_eq (tool : DataScreeningTool) (df : DataFrame)
    (res : DataScreeningTool × DataFrame)
    (h : tool.data = some df) (hok : screen_data tool = .ok res) :
    res = (tool, tool.rules.foldl applyRule df) := by
  rcases tool with ⟨data, rules⟩
  cases data with
  | none => cases h
  | some d =>
    obtain rfl : d = df := Option.some.inj h
    by_cases he : rules.isEmpty
    · simp [screen_data, he] at hok
    · simp only [screen_data, he, if_neg, Bool.false_eq_true,
        ite_false] at hok
      exact (Except.ok.inj hok).symm

/-- The spec's example row `{age:25, name:"张三"}`. -/
def rowZhangSan : Row := [("age", Value.int 25), ("name", Value.str "张三")]

/-- The spec's example row `{age:35, name:"李四"}`. -/
def rowLiSi : Row := [("age", Value.int 35), ("name", Value.str "李四")]

/-- The spec's example row `{age:27, name:"张伟"}`. -/
def rowZhangWei : Row := [("age", Value.int 27), ("name", Value.str "张伟")]

/-- The spec's example table. -/
def exampleTable : DataFrame :=
  ⟨["age", "name"], [rowZhangSan, rowLiSi, rowZhangWei]⟩

/-- The spec's example rule set `{age: {"<=": 30}, name: {"contains": "张"}}`
in the order `add_rules_from_dict` adds it. -/
def exampleRules : List Rule :=
  [⟨"age", "<=", .scalar (.int 30)⟩, ⟨"name", "contains", .scalar (.str "张")⟩]

/-- The spec's expected example result `[{age:25,name:"张三"},{age:27,name:"张伟"}]`. -/
def exampleResult : DataFrame :=
  ⟨["age", "name"], [rowZhangSan, rowZhangWei]⟩

/-- C1: on the spec's example table with rules `age <= 30` and
`name contains "张"`, `screen_data` returns exactly the rows 张三 and
张伟; and in general a row is in the result of a successful
`screen_data` run iff it is a source row satisfying every applicable
rule — the rules compose as a logical AND via sequential narrowing. -/
theorem screen_data_example_and_AND_semantics :
    screen_data ⟨some exampleTable, exampleRules⟩ =
      .ok (⟨some exampleTable, exampleRules⟩, exampleResult) ∧
    ∀ (tool : DataScreeningTool) (df : DataFrame)
      (res : DataScreeningTool × DataFrame) (r : Row),
      tool.data = some df → screen_data tool = .ok res →
      (r ∈ res.2.rows ↔
        r ∈ df.rows ∧ ∀ rule ∈ tool.rules,
          applicableRule df rule → satisfiesRule r rule = true) := by
  refine ⟨rfl, ?_⟩
  intro tool df res r h hok
  rw [screen_data_ok_eq tool df res h hok]
  rw [mem_foldl_applyRule]
  constructor
  · rintro ⟨hmem, hall⟩
    exact ⟨hmem, fun rule hr =>
      (ruleKeeps_iff_applicable df rule r).mp (hall rule hr)⟩
  · rintro ⟨hmem, hall⟩
    exact ⟨hmem, fun rule hr =>
      (ruleKeeps_iff_applicable df rule r).mpr (hall rule hr)⟩

/-- Witness for C1 at the spec's example: the row 李四 is excluded
because it fails the applicable rule `age <= 30`. -/
theorem screen_data_example_and_AND_semantics_witness :
    rowLiSi ∈ exampleResult.rows ↔
      rowLiSi ∈ exampleTable.rows ∧ ∀ rule ∈ exampleRules,
        applicableRule exampleTable rule → satisfiesRule rowLiSi rule = true :=
  screen_data_example_and_AND_semantics.2
    ⟨some exampleTable, exampleRules⟩ exampleTable
    (⟨some exampleTable, exampleRules⟩, exampleResult) rowLiSi rfl rfl

/-- C2: `screen_data` with no data loaded fails with the
no-data-loaded error whatever the rules are, and with data loaded but
an empty rule list it fails with the no-rules-defined error; in both
cases no result is produced. -/
theorem screen_data_state_errors :
    (∀ rules : List Rule,
      screen_data ⟨none, rules⟩ = .error .noDataLoaded) ∧
    (∀ df : DataFrame,
      screen_data ⟨some df, []⟩ = .error .noRulesDefined) :=
  ⟨fun _ => rfl, fun _ => rfl⟩

/-- The loop iteration is the identity when the rule's column is not a
column of the evolving result (`if column not in result.columns:
continue`). -/
theorem applyRule_of_col_not_mem (df : DataFrame) (rule : Rule)
    (h : rule.column ∉ df.columns) : applyRule df rule = df := by
  unfold applyRule
  rw [if_neg h]

/-- The loop iteration is the identity when the rule's condition is
unsupported (the final `else: … continue` branch). -/
theorem applyRule_of_unsupported (df : DataFrame) (rule : Rule)
    (h : evalCondition rule.condition rule.value = none) :
    applyRule df rule = df := by
  unfold applyRule
  rw [h]
  split <;> rfl

/-- Dropping one mid-list rule that every fold state skips leaves the
fold unchanged. -/
theorem foldl_applyRule_drop (df : DataFrame) (l1 l2 : List Rule)
    (rule : Rule) (hskip : ∀ d : DataFrame, applyRule d rule = d) :
    (l1 ++ rule :: l2).foldl applyRule df = (l1 ++ l2).foldl applyRule df := by
  rw [List.foldl_append, List.foldl_append, List.foldl_cons, hskip]

/-- C3: a rule whose column is absent from the loaded table raises no
error, and the run's result is exactly the fold of the remaining rules
— the unknown-column rule has no effect while all other rules still
apply. -/
theorem screen_data_unknown_column (df : DataFrame)
    (l1 l2 : List Rule) (rule : Rule)
    (h : rule.column ∉ df.columns) :
    screen_data ⟨some df, l1 ++ rule :: l2⟩ =
      .ok (⟨some df, l1 ++ rule :: l2⟩, (l1 ++ l2).foldl applyRule df) := by
  have hskip : ∀ d : DataFrame, d.columns = df.columns →
      applyRule d rule = d := fun d hd =>
    applyRule_of_col_not_mem d rule (hd ▸ h)
  show (if (l1 ++ rule :: l2).isEmpty then _ else _) = _
  rw [isEmpty_append_cons]
  simp only [Bool.false_eq_true, if_false]
  rw [List.foldl_append, List.foldl_append, List.foldl_cons,
    hskip _ (foldl_applyRule_columns l1 df)]

/-- The spec's unknown-column example rule `height > 10`: `exampleTable`
has no `height` column. -/
def heightRule : Rule := ⟨"height", ">", .scalar (.int 10)⟩

/-- The spec's rule `age <= 30`. -/
def ageRule : Rule := ⟨"age", "<=", .scalar (.int 30)⟩

/-- Witness for C3: on the spec's example table, a `height > 10` rule
(no `height` column) leaves the `age <= 30` filtering untouched. -/
theorem screen_data_unknown_column_witness :
    screen_data ⟨some exampleTable, [] ++ heightRule :: [ageRule]⟩ =
      Except.ok (⟨some exampleTable, [] ++ heightRule :: [ageRule]⟩,
        ([] ++ [ageRule]).foldl applyRule exampleTable) :=
  screen_data_unknown_column exampleTable [] [ageRule] heightRule (by decide)

/-- The condition strings recognized by the dispatch of `screen_data`
(the spec's `gt, gte, lt, lte, eq, neq, contains, not_contains, in_set,
not_in_set`). -/
def recognizedConditions : List String :=
  [">", ">=", "<", "<=", "==", "!=", "contains", "not contains", "in", "not in"]

/-- A condition outside the recognized list falls through every branch
to the final `else`. -/
theorem evalCondition_none_of_unrecognized (condition : String) (value : Operand)
    (h : condition ∉ recognizedConditions) :
    evalCondition condition value = none := by
  simp only [recognizedConditions, List.mem_cons, List.not_mem_nil,
    not_or, or_false] at h
  obtain ⟨h1, h2, h3, h4, h5, h6, h7, h8, h9, h10⟩ := h
  simp [evalCondition, h1, h2, h3, h4, h5, h6, h7, h8, h9, h10]

/-- C4: a rule whose condition string is none of the ten recognized
kinds is skipped without any exception, and the run's result is exactly
the fold of the remaining rules. -/
theorem screen_data_unsupported_condition (df : DataFrame)
    (l1 l2 : List Rule) (rule : Rule)
    (h : rule.condition ∉ recognizedConditions) :
    screen_data ⟨some df, l1 ++ rule :: l2⟩ =
      .ok (⟨some df, l1 ++ rule :: l2⟩, (l1 ++ l2).foldl applyRule df) := by
  show (if (l1 ++ rule :: l2).isEmpty then _ else _) = _
  rw [isEmpty_append_cons]
  simp only [Bool.false_eq_true, if_false]
  rw [foldl_applyRule_drop df l1 l2 rule (fun d =>
    applyRule_of_unsupported d rule
      (evalCondition_none_of_unrecognized rule.condition rule.value h))]

/-- The spec's unsupported-condition example rule `{age: {"~=": 5}}`. -/
def tildeRule : Rule := ⟨"age", "~=", .scalar (.int 5)⟩

/-- Witness for C4: on the spec's example table, the `age ~= 5` rule is
skipped and `age <= 30` still applies. -/
theorem screen_data_unsupported_condition_witness :
    screen_data ⟨some exampleTable, [] ++ tildeRule :: [ageRule]⟩ =
      Except.ok (⟨some exampleTable, [] ++ tildeRule :: [ageRule]⟩,
        ([] ++ [ageRule]).foldl applyRule exampleTable) :=
  screen_data_unsupported_condition exampleTable [] [ageRule] tildeRule
    (by decide)

/-- C5: permuting the rule list never changes the set of rows of a
successful `screen_data` run — the rules conjoin, and conjunction is
commutative. -/
theorem screen_data_order_independence
    (df : DataFrame) (rules1 rules2 : List Rule) (hperm : rules1.Perm rules2)
    (res1 res2 : DataScreeningTool × DataFrame)
    (h1 : screen_data ⟨some df, rules1⟩ = .ok res1)
    (h2 : screen_data ⟨some df, rules2⟩ = .ok res2)
    (r : Row) : (r ∈ res1.2.rows ↔ r ∈ res2.2.rows) := by
  have e1 : res1.2 = rules1.foldl applyRule df := by
    rw [screen_data_ok_eq _ df res1 rfl h1]
  have e2 : res2.2 = rules2.foldl applyRule df := by
    rw [screen_data_ok_eq _ df res2 rfl h2]
  rw [e1, e2, mem_foldl_applyRule, mem_foldl_applyRule]
  constructor
  · rintro ⟨hm, hall⟩
    exact ⟨hm, fun rule hr => hall rule (hperm.mem_iff.mpr hr)⟩
  · rintro ⟨hm, hall⟩
    exact ⟨hm, fun rule hr => hall rule (hperm.mem_iff.mp hr)⟩

/-- The spec's example rules in the opposite order. -/
def exampleRulesSwapped : List Rule :=
  [⟨"name", "contains", .scalar (.str "张")⟩, ⟨"age", "<=", .scalar (.int 30)⟩]

/-- Witness for C5: swapping the two example rules leaves membership of
the row 张三 in the result unchanged. -/
theorem screen_data_order_independence_witness :
    rowZhangSan ∈ (exampleRules.foldl applyRule exampleTable).rows ↔
      rowZhangSan ∈ (exampleRulesSwapped.foldl applyRule exampleTable).rows :=
  screen_data_order_independence exampleTable exampleRules exampleRulesSwapped
    (List.Perm.swap _ _ _)
    (⟨some exampleTable, exampleRules⟩, exampleRules.foldl applyRule exampleTable)
    (⟨some exampleTable, exampleRulesSwapped⟩,
      exampleRulesSwapped.foldl applyRule exampleTable)
    rfl rfl rowZhangSan

/-- The `contains` branch of the dispatch, as a predicate equation. -/
theorem evalCondition_contains (value : Operand) :
    evalCondition "contains" value =
      some (fun v => pyStrContains v.toStr value.toVal.toStr) := rfl

/-- The `not contains` branch of the dispatch, as a predicate equation. -/
theorem evalCondition_not_contains (value : Operand) :
    evalCondition "not contains" value =
      some (fun v => !pyStrContains v.toStr value.toVal.toStr) := rfl

/-- The `in` branch of the dispatch, as a predicate equation. -/
theorem evalCondition_in_op (value : Operand) :
    evalCondition "in" value =
      some (fun v => valueIsin v value.asList) := rfl

/-- The `not in` branch of the dispatch, as a predicate equation. -/
theorem evalCondition_not_in_op (value : Operand) :
    evalCondition "not in" value =
      some (fun v => !valueIsin v value.asList) := rfl

/-- A one-column, one-row table whose only cell is missing (`NaN`). -/
def rowNull : Row := [("x", Value.null)]

/-- The table holding only `rowNull`. -/
def nullTable : DataFrame := ⟨["x"], [rowNull]⟩

/-- The rule `x contains "a"`. -/
def containsRuleA : Rule := ⟨"x", "contains", .scalar (.str "a")⟩

/-- Counterexample for C6: a `contains "a"` rule KEEPS the row whose
cell is missing — `astype(str)` turns `NaN` into the string `"nan"`,
which contains `"a"` — so a missing value is not treated as
non-matching for `contains`. (The operand `"a"` has no regex
metacharacter, so the modelled substring test coincides with the
program's regex search here.) -/
theorem contains_null_counterexample :
    (screen_data ⟨some nullTable, [containsRuleA]⟩).map (fun p => p.2.rows) =
      .ok [rowNull] ∧ [rowNull] ≠ ([] : List Row) :=
  ⟨rfl, by simp⟩

/-- C6 (amended): for an operand whose string form is free of regex
metacharacters — where pandas `str.contains`'s default regex matching
is exactly a literal substring search — `contains` and `not contains`
coerce the row value and the operand to their string forms and keep
rows by that substring test and its negation; a missing value takes
its canonical string form `"nan"`, and BOTH the `contains` and the
`not contains` outcomes on it are determined by that same substring
test. Operands with regex metacharacters are outside this theorem's
scope (there the program does regex matching, or raises on a malformed
pattern). -/
theorem contains_string_coercion_semantics (df : DataFrame) (col : String)
    (op : Value) (r : Row) (hcol : col ∈ df.columns)
    (hop : regexFreePat op.toStr = true) :
    (screen_data ⟨some df, [⟨col, "contains", .scalar op⟩]⟩ =
       .ok (⟨some df, [⟨col, "contains", .scalar op⟩]⟩,
            applyRule df ⟨col, "contains", .scalar op⟩)) ∧
    (r ∈ (applyRule df ⟨col, "contains", .scalar op⟩).rows ↔
       r ∈ df.rows ∧
         pyStrContains (rowValue r col).toStr op.toStr = true) ∧
    (r ∈ (applyRule df ⟨col, "not contains", .scalar op⟩).rows ↔
       r ∈ df.rows ∧
         ¬ pyStrContains (rowValue r col).toStr op.toStr = true) ∧
    Value.null.toStr = "nan" := by
  refine ⟨rfl, ?_, ?_, rfl⟩
  · rw [mem_applyRule]
    simp [ruleKeeps, satisfiesRule, evalCondition_contains, hcol, Operand.toVal]
  · rw [mem_applyRule]
    simp [ruleKeeps, satisfiesRule, evalCondition_not_contains, hcol, Operand.toVal]

/-- Witness for C6's amended theorem at the missing-value table: the
operand `"a"` is regex-metacharacter-free, the `NaN` cell string-ifies
to `"nan"`, and the substring test against `"a"` decides both
branches. -/
theorem contains_string_coercion_semantics_witness :
    (screen_data ⟨some nullTable, [⟨"x", "contains", .scalar (.str "a")⟩]⟩ =
       .ok (⟨some nullTable, [⟨"x", "contains", .scalar (.str "a")⟩]⟩,
            applyRule nullTable ⟨"x", "contains", .scalar (.str "a")⟩)) ∧
    (rowNull ∈ (applyRule nullTable ⟨"x", "contains", .scalar (.str "a")⟩).rows ↔
       rowNull ∈ nullTable.rows ∧
         pyStrContains (rowValue rowNull "x").toStr (Value.str "a").toStr = true) ∧
    (rowNull ∈ (applyRule nullTable ⟨"x", "not contains", .scalar (.str "a")⟩).rows ↔
       rowNull ∈ nullTable.rows ∧
         ¬ pyStrContains (rowValue rowNull "x").toStr (Value.str "a").toStr = true) ∧
    Value.null.toStr = "nan" :=
  contains_string_coercion_semantics nullTable "x" (.str "a") rowNull
    (by decide) (by decide)

/-- A run over loaded data and a nonempty rule list succeeds and folds
the rules over the frame. -/
theorem screen_data_eq_ok (df : DataFrame) (rules : List Rule)
    (h : rules.isEmpty = false) :
    screen_data ⟨some df, rules⟩ =
      .ok (⟨some df, rules⟩, rules.foldl applyRule df) := by
  show (if rules.isEmpty then _ else _) = _
  rw [h]
  simp

/-- C7: an `in` (resp. `not in`) rule with a bare scalar operand filters
exactly like the same rule with the singleton list operand, anywhere in
the rule list and over any frame: the source coerces a non-list operand
to a one-element list. -/
theorem screen_data_in_singleton_coercion (df : DataFrame)
    (l1 l2 : List Rule) (col : String) (v : Value) :
    ((screen_data ⟨some df, l1 ++ (⟨col, "in", .scalar v⟩ : Rule) :: l2⟩).map
        Prod.snd =
      (screen_data ⟨some df, l1 ++ (⟨col, "in", .list [v]⟩ : Rule) :: l2⟩).map
        Prod.snd) ∧
    ((screen_data ⟨some df, l1 ++ (⟨col, "not in", .scalar v⟩ : Rule) :: l2⟩).map
        Prod.snd =
      (screen_data ⟨some df, l1 ++ (⟨col, "not in", .list [v]⟩ : Rule) :: l2⟩).map
        Prod.snd) := by
  have hin : ∀ d : DataFrame,
      applyRule d ⟨col, "in", .scalar v⟩ = applyRule d ⟨col, "in", .list [v]⟩ :=
    fun d => rfl
  have hnotin : ∀ d : DataFrame,
      applyRule d ⟨col, "not in", .scalar v⟩ =
        applyRule d ⟨col, "not in", .list [v]⟩ :=
    fun d => rfl
  constructor
  · rw [screen_data_eq_ok df _ (isEmpty_append_cons _ _ _),
      screen_data_eq_ok df _ (isEmpty_append_cons _ _ _)]
    simp only [Except.map]
    rw [List.foldl_append, List.foldl_append, List.foldl_cons, List.foldl_cons,
      hin]
  · rw [screen_data_eq_ok df _ (isEmpty_append_cons _ _ _),
      screen_data_eq_ok df _ (isEmpty_append_cons _ _ _)]
    simp only [Except.map]
    rw [List.foldl_append, List.foldl_append, List.foldl_cons, List.foldl_cons,
      hnotin]

/-- C8: a successful `screen_data` run returns the tool state it was
given — `self.data` and `self.rules` are untouched, and the result
frame is a separate value built by folding over a copy. -/
theorem screen_data_no_mutation (tool : DataScreeningTool)
    (res : DataScreeningTool × DataFrame)
    (hok : screen_data tool = .ok res) : res.1 = tool := by
  rcases tool with ⟨data, rules⟩
  cases data with
  | none => simp [screen_data] at hok
  | some d =>
    have e := screen_data_ok_eq ⟨some d, rules⟩ d res rfl hok
    rw [e]

/-- Witness for C8 at the spec's example. -/
theorem screen_data_no_mutation_witness :
    ((⟨some exampleTable, exampleRules⟩, exampleResult) :
        DataScreeningTool × DataFrame).1 =
      ⟨some exampleTable, exampleRules⟩ :=
  screen_data_no_mutation ⟨some exampleTable, exampleRules⟩
    (⟨some exampleTable, exampleRules⟩, exampleResult) rfl

/-- C9: the result of a successful run always has exactly the columns
of the loaded table — filtering removes rows only, never columns. -/
theorem screen_data_preserves_columns (tool : DataScreeningTool)
    (df : DataFrame) (res : DataScreeningTool × DataFrame)
    (h : tool.data = some df) (hok : screen_data tool = .ok res) :
    res.2.columns = df.columns := by
  have e := screen_data_ok_eq tool df res h hok
  rw [e]
  exact foldl_applyRule_columns tool.rules df

/-- A rule matching no example row: `age > 100`. -/
def ageOver100 : Rule := ⟨"age", ">", .scalar (.int 100)⟩

/-- Witness for C9: a rule set matching zero rows raises no error and
returns a zero-row table whose columns are the original ones. -/
theorem screen_data_preserves_columns_witness :
    ((screen_data ⟨some exampleTable, [ageOver100]⟩).map (fun p => p.2.rows) =
      .ok ([] : List Row)) ∧
    (([ageOver100] : List Rule).foldl applyRule exampleTable).columns =
      exampleTable.columns :=
  ⟨rfl,
    screen_data_preserves_columns ⟨some exampleTable, [ageOver100]⟩ exampleTable
      (⟨some exampleTable, [ageOver100]⟩,
        ([ageOver100] : List Rule).foldl applyRule exampleTable) rfl rfl⟩

/-- C10: the row sequence of a successful run is a subsequence of the
loaded table's row sequence — every result row occurs in the source, in
the source's relative order and with no higher multiplicity. -/
theorem screen_data_rows_sublist (tool : DataScreeningTool)
    (df : DataFrame) (res : DataScreeningTool × DataFrame)
    (h : tool.data = some df) (hok : screen_data tool = .ok res) :
    res.2.rows.Sublist df.rows := by
  have e := screen_data_ok_eq tool df res h hok
  rw [e]
  exact foldl_applyRule_rows_sublist tool.rules df

/-- Witness for C10 at the spec's example. -/
theorem screen_data_rows_sublist_witness :
    (exampleRules.foldl applyRule exampleTable).rows.Sublist exampleTable.rows :=
  screen_data_rows_sublist ⟨some exampleTable, exampleRules⟩ exampleTable
    (⟨some exampleTable, exampleRules⟩,
      exampleRules.foldl applyRule exampleTable) rfl rfl
